import Mathlib

/-!
Verification development for the head-runtime routing node
(`jina/peapods/runtimes/head/__init__.py`): the data-plane router
(fan-out / fan-in with local merge), the control-plane state machine
(ACTIVATE / DEACTIVATE / TERMINATE), the readiness prober and the
ready-or-shutdown wait loop.

External collaborators (`GrpcConnectionPool`, `DataRequestHandler`) are not
part of the given sources; they are modelled from the specification's
contract and marked as such in their doc comments.  Documents and envelope
metadata are opaque type parameters `D` and `E`.
-/

namespace Jina

/-- A `RelatedEntity` of an ACTIVATE/DEACTIVATE control request:
`address`, `port`, and an optional `shard_id`.  `shard_id = none` models a
protobuf message for which `HasField ('shard_id')` is false; the raw proto
accessor then yields the field default `0`, i.e. `shard_id.getD 0`. -/
structure RelatedEntity where
  address : String
  port : Nat
  shard_id : Option Nat
  deriving DecidableEq, Repr

/-- A connection-registry entry `(pod role, address, optional shard id)`. -/
structure Endpoint where
  pod : String
  address : String
  shard_id : Option Nat
  deriving DecidableEq, Repr

/-- Modelled from the spec: the Connection Registry state held by
`GrpcConnectionPool` (module `jina.networking`, not under `src/`).  Per the
spec it is a concurrency-safe mapping from a role name to a set of
endpoints, each optionally tagged with a shard identifier. -/
abbrev Registry := Finset Endpoint

/-- Modelled from the spec: `GrpcConnectionPool.add_connection` (not under
`src/`); registering an already-present endpoint is a no-op (idempotent). -/
def add_connection (pool : Registry) (pod : String) (address : String)
    (shard_id : Option Nat) : Registry :=
  insert (Endpoint.mk pod address shard_id) pool

/-- Modelled from the spec: `GrpcConnectionPool.remove_connection` (not
under `src/`); removes the matching `(pod, address, shard_id)` registration,
removing a non-existent endpoint is a no-op and never raises. -/
def remove_connection (pool : Registry) (pod : String) (address : String)
    (shard_id : Option Nat) : Registry :=
  pool.erase (Endpoint.mk pod address shard_id)

/-- The envelope of a message: the `request_type` discriminant
(`'DataRequest'` or a control type) plus opaque further metadata. -/
structure Envelope (E : Type) where
  request_type : String
  meta : E
  deriving DecidableEq, Repr

/-- The request part of a message: a control `command` with its
`relatedEntities`, and the document sequence `docs` of a data request. -/
structure Request (D : Type) where
  command : String
  relatedEntities : List RelatedEntity
  docs : List D
  deriving DecidableEq, Repr

/-- A message: envelope plus request. -/
structure Message (D E : Type) where
  envelope : Envelope E
  request : Request D
  deriving DecidableEq, Repr

/-- `f'{relatedEntity.address}:{relatedEntity.port}'` -/
def connection_string (e : RelatedEntity) : String :=
  e.address ++ ":" ++ toString e.port

/-- The polling policy, fixed per head at construction. -/
inductive PollingType where
  | ANY : PollingType
  | ALL : PollingType
  deriving DecidableEq, Repr

/-- Exceptions raised by the head's request handling:
`RuntimeTerminated` (the TERMINATE signal), `RuntimeError` with its message
(the zero-result aggregation failure), `IndexError` (subscripting an empty
list). -/
inductive HeadError where
  | RuntimeTerminated : HeadError
  | RuntimeError (msg : String) : HeadError
  | IndexError : HeadError
  deriving DecidableEq, Repr

/-- The static configuration and external collaborators of a `HeadRuntime`:
its `name`, the optional `uses_before` / `uses_after` addresses, the polling
policy, and the two dispatch primitives of the Connection Registry.
`send_messages_once` models `connection_pool.send_messages_once (messages,
pod)` (single logical destination); `send_messages` models
`connection_pool.send_messages (messages, pod = 'worker', polling_type)`
followed by the `asyncio.as_completed` await loop, so its value is the list
of worker results in completion order — which order is not deterministic,
hence it is a parameter of the model. -/
structure Head (D E : Type) where
  name : String
  uses_before_address : Option String
  uses_after_address : Option String
  polling : PollingType
  send_messages_once : List (Message D E) → String → Message D E
  send_messages : List (Message D E) → PollingType → List (Message D E)

/-- Modelled from the spec: `DataRequestHandler.replace_docs` (module
`jina.peapods.runtimes.request_handlers`, not under `src/`); per §4.3 the
response is the chosen result "with its document sequence replaced by the
combined sequence". -/
def replace_docs {D E : Type} (m : Message D E) (docs : List D) :
    Message D E :=
  { m with request := { m.request with docs := docs } }

/-- The pre-stage of `_handle_data_requests`: if a `uses_before` address is
configured the whole batch is replaced by the single reply of
`send_messages_once (messages, pod = 'uses_before')`. -/
def pre_stage {D E : Type} (h : Head D E) (messages : List (Message D E)) :
    List (Message D E) :=
  if h.uses_before_address.isSome then
    [h.send_messages_once messages "uses_before"]
  else
    messages

/-- The fan-out of `_handle_data_requests`: the worker results collected in
completion order from the dispatch of the (possibly pre-staged) batch to
the `worker` role. -/
def fan_out_results {D E : Type} (h : Head D E)
    (messages : List (Message D E)) : List (Message D E) :=
  h.send_messages (pre_stage h messages) h.polling

/-- `HeadRuntime._handle_data_requests`: pre-stage, fan-out, then either
forward all worker results to `uses_after`, or merge locally: with more
than one result concatenate the docs of the `reversed` results and store
them in `worker_results[0]`; with exactly one result return it as is; with
none raise `RuntimeError (f'Head {self.name} did not receive a response
when sending message to worker peas')`. -/
def handle_data_requests {D E : Type} (h : Head D E)
    (messages : List (Message D E)) : Except HeadError (Message D E) :=
  let worker_results := fan_out_results h messages
  if h.uses_after_address.isSome then
    Except.ok (h.send_messages_once worker_results "uses_after")
  else if 1 < worker_results.length then
    let partial_requests := worker_results.map Message.request
    let result := (partial_requests.reverse.map Request.docs).flatten
    match worker_results with
    | r0 :: _ => Except.ok (replace_docs r0 result)
    | [] => Except.error HeadError.IndexError
  else if worker_results.length = 1 then
    match worker_results with
    | r0 :: _ => Except.ok r0
    | [] => Except.error HeadError.IndexError
  else
    Except.error (HeadError.RuntimeError
      ("Head " ++ h.name ++
        " did not receive a response when sending message to worker peas"))

/-- `HeadRuntime._handle_control_request`: TERMINATE raises
`RuntimeTerminated`; ACTIVATE adds a worker connection per related entity,
passing `relatedEntity.shard_id if relatedEntity.HasField ('shard_id') else
None`, i.e. exactly the optional `e.shard_id`; DEACTIVATE removes a worker
connection per related entity passing the raw accessor
`relatedEntity.shard_id`, i.e. the contained value or the proto default
`0`, hence `some (e.shard_id.getD 0)`; any other command falls through;
the message itself is returned. -/
def handle_control_request {D E : Type} (pool : Registry)
    (msg : Message D E) : Except HeadError (Registry × Message D E) :=
  if msg.request.command = "TERMINATE" then
    Except.error HeadError.RuntimeTerminated
  else if msg.request.command = "ACTIVATE" then
    Except.ok
      (msg.request.relatedEntities.foldl
        (fun pool e =>
          add_connection pool "worker" (connection_string e) e.shard_id)
        pool,
        msg)
  else if msg.request.command = "DEACTIVATE" then
    Except.ok
      (msg.request.relatedEntities.foldl
        (fun pool e =>
          remove_connection pool "worker" (connection_string e)
            (some (e.shard_id.getD 0)))
        pool,
        msg)
  else
    Except.ok (pool, msg)

/-- The registry after `_handle_control_request` (unchanged when the
request raises `RuntimeTerminated`, which it does before any mutation). -/
def control_effect {D E : Type} (pool : Registry) (msg : Message D E) :
    Registry :=
  match handle_control_request pool msg with
  | Except.ok (pool2, _) => pool2
  | Except.error _ => pool

/-- The `for message in messages` loop of `_handle_messages` on the control
path: each message is handled in turn threading the registry,
`last_response` is overwritten each iteration, and a raise aborts the rest
of the loop. -/
def handle_control_requests {D E : Type} (pool : Registry)
    (msgs : List (Message D E)) (last_response : Option (Message D E)) :
    Registry × Except HeadError (Option (Message D E)) :=
  match msgs with
  | [] => (pool, Except.ok last_response)
  | m :: rest =>
    match handle_control_request pool m with
    | Except.error e => (pool, Except.error e)
    | Except.ok (pool2, resp) =>
      handle_control_requests pool2 rest (some resp)

/-- `HeadRuntime._handle_messages`: subscripting an empty batch raises
`IndexError`; when `messages[0].envelope.request_type != 'DataRequest'`
the control messages are processed one by one and just the last response is
returned, otherwise the batch goes to `_handle_data_requests`. -/
def handle_messages {D E : Type} (h : Head D E) (pool : Registry)
    (messages : List (Message D E)) :
    Registry × Except HeadError (Option (Message D E)) :=
  match messages with
  | [] => (pool, Except.error HeadError.IndexError)
  | m0 :: _ =>
    if m0.envelope.request_type ≠ "DataRequest" then
      handle_control_requests pool messages none
    else
      (pool, (handle_data_requests h messages).map some)

/-- The mutable state `Call` touches: the Connection Registry and the
`is_cancel` event. -/
structure CallState where
  pool : Registry
  cancelled : Bool
  deriving DecidableEq

/-- `HeadRuntime.Call`: runs `_handle_messages`; on `RuntimeTerminated` it
cancels the runtime (sets the `is_cancel` event) and falls off the end of
the function, so the caller gets no domain response (`none`); any other
exception is logged and re-raised. -/
def Call {D E : Type} (h : Head D E) (st : CallState)
    (messages : List (Message D E)) :
    CallState × Except HeadError (Option (Message D E)) :=
  match handle_messages h st.pool messages with
  | (pool2, Except.ok r) => ({ st with pool := pool2 }, Except.ok r)
  | (pool2, Except.error HeadError.RuntimeTerminated) =>
    ({ pool := pool2, cancelled := true }, Except.ok none)
  | (pool2, Except.error e) => ({ st with pool := pool2 }, Except.error e)

/-- A transport failure of a synchronous gRPC dispatch (`grpc.RpcError`),
carrying its diagnostic detail. -/
structure RpcError where
  details : String
  deriving DecidableEq, Repr

/-- `HeadRuntime.is_ready`: sends the fixed `STATUS` control probe
synchronously to `ctrl_address` via
`GrpcConnectionPool.send_message_sync`; the dispatch either yields a reply
or reports a transport failure (`RpcError`), which is caught and turned
into `false`.  `send_status` is the external dispatch, applied to the
control address.  The function is total: it never raises. -/
def is_ready {D E : Type}
    (send_status : String → Except RpcError (Message D E))
    (ctrl_address : String) : Bool :=
  match send_status ctrl_address with
  | Except.error _ => false
  | Except.ok _ => true

/-- The `time.sleep (0.1)` of the wait loop, in nanoseconds. -/
def sleep_ns : Nat := 100000000

/-- The `while` guard `timeout_ns is None or time.time_ns () - now <
timeout_ns`. -/
def elapsed_lt (timeout_ns : Option Nat) (elapsed : Nat) : Bool :=
  match timeout_ns with
  | none => true
  | some t => decide (elapsed < t)

/-- The `while` loop of `wait_for_ready_or_shutdown`, idealised so that the
k-th guard check happens at elapsed time `k * sleep_ns` (each iteration
costs exactly the fixed 100 ms sleep).  `shutdown_event k` and `ready k`
are the values of `shutdown_event.is_set ()` and `is_ready (ctrl_address)`
observed at the k-th poll.  `fuel` bounds how many iterations are
unrolled: `none` means the loop is still running after `fuel` polls. -/
def wait_loop (shutdown_event : Nat → Bool) (ready : Nat → Bool)
    (timeout_ns : Option Nat) : Nat → Nat → Option Bool
  | 0, _ => none
  | fuel + 1, k =>
    if elapsed_lt timeout_ns (k * sleep_ns) then
      if shutdown_event k || ready k then
        some true
      else
        wait_loop shutdown_event ready timeout_ns fuel (k + 1)
    else
      some false

/-- `HeadRuntime.wait_for_ready_or_shutdown`: `timeout_ns = 1000000000 *
timeout if timeout else None` — both `None` and the falsy `0` give `None` —
then the poll loop.  `timeout` is in whole seconds. -/
def wait_for_ready_or_shutdown (timeout : Option Nat)
    (shutdown_event : Nat → Bool) (ready : Nat → Bool) (fuel : Nat) :
    Option Bool :=
  let timeout_ns : Option Nat :=
    match timeout with
    | some t => if t = 0 then none else some (1000000000 * t)
    | none => none
  wait_loop shutdown_event ready timeout_ns fuel 0

/-! ## Helper lemmas -/

/-- A control request that is not TERMINATE succeeds and returns the
message itself, with `control_effect` describing its registry effect. -/
theorem handle_control_request_eq_ok {D E : Type} (pool : Registry)
    (msg : Message D E) (h : msg.request.command ≠ "TERMINATE") :
    handle_control_request pool msg =
      Except.ok (control_effect pool msg, msg) := by
  unfold control_effect handle_control_request
  rw [if_neg h]
  by_cases h2 : msg.request.command = "ACTIVATE" <;>
    by_cases h3 : msg.request.command = "DEACTIVATE" <;>
    simp [h2, h3]

/-- A TERMINATE control request raises before touching the registry. -/
theorem handle_control_request_terminate {D E : Type} (pool : Registry)
    (msg : Message D E) (h : msg.request.command = "TERMINATE") :
    handle_control_request pool msg =
      Except.error HeadError.RuntimeTerminated := by
  unfold handle_control_request
  rw [if_pos h]

/-- A convenience constructor for a control message with the given
envelope, command and related entities (and no documents). -/
def control_msg {D E : Type} (env : Envelope E) (command : String)
    (entities : List RelatedEntity) : Message D E :=
  Message.mk env (Request.mk command entities [])

/-! ## Claim C6 -/

/-- Claim C6: processing a control command other than TERMINATE, ACTIVATE
and DEACTIVATE is a no-op: the Connection Registry is unchanged and the
call returns normally (no exception). -/
theorem unknown_command_noop {D E : Type} (pool : Registry)
    (msg : Message D E)
    (h1 : msg.request.command ≠ "TERMINATE")
    (h2 : msg.request.command ≠ "ACTIVATE")
    (h3 : msg.request.command ≠ "DEACTIVATE") :
    handle_control_request pool msg = Except.ok (pool, msg) := by
  unfold handle_control_request
  rw [if_neg h1, if_neg h2, if_neg h3]

/-- Witness for C6 at the concrete command `'STATUS'`. -/
theorem unknown_command_noop_witness :
    handle_control_request (D := Nat) (E := Nat) ∅
        (Message.mk (Envelope.mk "ControlRequest" 0)
          (Request.mk "STATUS" [] [])) =
      Except.ok (∅, Message.mk (Envelope.mk "ControlRequest" 0)
        (Request.mk "STATUS" [] [])) :=
  unknown_command_noop ∅ _ (by decide) (by decide) (by decide)

/-! ## Claim C7 -/

/-- Claim C7: `is_ready` returns `false` whenever the synchronous STATUS
probe dispatch reports a transport failure, and `true` whenever the
dispatch yields a reply; being a total function into `Bool`, it never
raises to its caller. -/
theorem is_ready_probe {D E : Type}
    (send_status : String → Except RpcError (Message D E))
    (ctrl_address : String) :
    (∀ err, send_status ctrl_address = Except.error err →
      is_ready send_status ctrl_address = false) ∧
    (∀ reply, send_status ctrl_address = Except.ok reply →
      is_ready send_status ctrl_address = true) := by
  constructor
  · intro err herr
    unfold is_ready
    rw [herr]
  · intro reply hreply
    unfold is_ready
    rw [hreply]

/-- Witness for C7: a failing probe reports `false`, a succeeding probe
reports `true`. -/
theorem is_ready_probe_witness :
    is_ready (D := Nat) (E := Nat)
        (fun _ => Except.error (RpcError.mk "unavailable")) "0.0.0.0:1234"
      = false ∧
    is_ready (D := Nat) (E := Nat)
        (fun _ => Except.ok (Message.mk (Envelope.mk "ControlRequest" 0)
          (Request.mk "STATUS" [] []))) "0.0.0.0:1234" = true :=
  ⟨(is_ready_probe _ "0.0.0.0:1234").1 _ rfl,
    (is_ready_probe _ "0.0.0.0:1234").2 _ rfl⟩

/-! ## Claim C5 -/

/-- Claim C5 counterexample: ACTIVATE then DEACTIVATE of the identical
entity does not always restore the worker set.  First conjunct: the entity
carries no `shard_id`, so ACTIVATE registers the endpoint tagged `none`
while DEACTIVATE removes the endpoint tagged with the proto default `0`,
leaving the registration behind.  Second conjunct: the endpoint was already
registered before the ACTIVATE (which is then an idempotent no-op), so the
DEACTIVATE removes it and the pre-ACTIVATE state is not restored. -/
theorem activate_deactivate_roundtrip_cex :
    (control_effect
        (control_effect (∅ : Registry)
          (control_msg (D := Nat) (E := Nat) (Envelope.mk "ControlRequest" 0)
            "ACTIVATE" [RelatedEntity.mk "10.0.0.1" 8080 none]))
        (control_msg (D := Nat) (E := Nat) (Envelope.mk "ControlRequest" 0)
          "DEACTIVATE" [RelatedEntity.mk "10.0.0.1" 8080 none])
      ≠ (∅ : Registry)) ∧
    (control_effect
        (control_effect
          ({Endpoint.mk "worker" "10.0.0.1:8080" (some 3)} : Registry)
          (control_msg (D := Nat) (E := Nat) (Envelope.mk "ControlRequest" 0)
            "ACTIVATE" [RelatedEntity.mk "10.0.0.1" 8080 (some 3)]))
        (control_msg (D := Nat) (E := Nat) (Envelope.mk "ControlRequest" 0)
          "DEACTIVATE" [RelatedEntity.mk "10.0.0.1" 8080 (some 3)])
      ≠ ({Endpoint.mk "worker" "10.0.0.1:8080" (some 3)} : Registry)) := by
  constructor
  · decide
  · decide

/-- Claim C5 (amended): for an entity that does carry a `shard_id` and
whose endpoint is not yet registered, processing ACTIVATE and then
DEACTIVATE of the identical `(address, shard_id)` restores the worker set
to its pre-ACTIVATE state. -/
theorem activate_deactivate_roundtrip {D E : Type} (pool : Registry)
    (envA envD : Envelope E) (e : RelatedEntity) (s : Nat)
    (hs : e.shard_id = some s)
    (hnew : Endpoint.mk "worker" (connection_string e) e.shard_id ∉ pool) :
    control_effect
        (control_effect pool (control_msg (D := D) envA "ACTIVATE" [e]))
        (control_msg (D := D) envD "DEACTIVATE" [e]) = pool := by
  have hact : control_effect pool
      (control_msg (D := D) (E := E) envA "ACTIVATE" [e]) =
      insert (Endpoint.mk "worker" (connection_string e) e.shard_id) pool :=
    rfl
  have hdeact : ∀ p : Registry, control_effect p
      (control_msg (D := D) (E := E) envD "DEACTIVATE" [e]) =
      p.erase (Endpoint.mk "worker" (connection_string e)
        (some (e.shard_id.getD 0))) := fun p => rfl
  rw [hact, hdeact, hs]
  rw [hs] at hnew
  exact Finset.erase_insert hnew

/-- Witness for C5 (amended) at a concrete sharded entity and the empty
registry. -/
theorem activate_deactivate_roundtrip_witness :
    control_effect
        (control_effect (∅ : Registry)
          (control_msg (D := Nat) (E := Nat) (Envelope.mk "ControlRequest" 0)
            "ACTIVATE" [RelatedEntity.mk "10.0.0.2" 9090 (some 5)]))
        (control_msg (D := Nat) (E := Nat) (Envelope.mk "ControlRequest" 0)
          "DEACTIVATE" [RelatedEntity.mk "10.0.0.2" 9090 (some 5)])
      = (∅ : Registry) :=
  activate_deactivate_roundtrip ∅ _ _ _ 5 rfl (by decide)

/-! ## Control batches: helper lemmas -/

/-- Folding the overwrite of `last_response` over a non-empty list yields
its last element. -/
theorem foldl_overwrite {α : Type} :
    ∀ (l : List α) (init : Option α), l ≠ [] →
      List.foldl (fun _ m => some m) init l = l.getLast? := by
  intro l
  induction l with
  | nil => intro init hne; exact absurd rfl hne
  | cons b t ih =>
    intro init _
    simp only [List.foldl_cons]
    cases t with
    | nil => rfl
    | cons c t2 =>
      rw [ih (some b) (by simp), List.getLast?_cons_cons]

/-- The control loop on a batch without TERMINATE: the registry effects
accumulate left to right and the last response wins. -/
theorem handle_control_requests_no_term {D E : Type} :
    ∀ (msgs : List (Message D E)) (pool : Registry)
      (last : Option (Message D E)),
      (∀ m ∈ msgs, m.request.command ≠ "TERMINATE") →
      handle_control_requests pool msgs last =
        (msgs.foldl control_effect pool,
          Except.ok (msgs.foldl (fun _ m => some m) last)) := by
  intro msgs
  induction msgs with
  | nil => intro pool last _; rfl
  | cons m rest ih =>
    intro pool last hno
    have hm : m.request.command ≠ "TERMINATE" :=
      hno m (List.mem_cons_self m rest)
    simp only [handle_control_requests,
      handle_control_request_eq_ok pool m hm, List.foldl_cons]
    exact ih (control_effect pool m) (some m)
      (fun m' hm' => hno m' (List.mem_cons_of_mem m hm'))

/-- The control loop on a batch whose first TERMINATE is preceded by
`pre`: the commands of `pre` are applied, then the TERMINATE raises and
nothing after it is processed. -/
theorem handle_control_requests_term {D E : Type} :
    ∀ (pre : List (Message D E)) (pool : Registry)
      (last : Option (Message D E)) (tmsg : Message D E)
      (post : List (Message D E)),
      (∀ m ∈ pre, m.request.command ≠ "TERMINATE") →
      tmsg.request.command = "TERMINATE" →
      handle_control_requests pool (pre ++ tmsg :: post) last =
        (pre.foldl control_effect pool,
          Except.error HeadError.RuntimeTerminated) := by
  intro pre
  induction pre with
  | nil =>
    intro pool last tmsg post _ hterm
    simp only [List.nil_append, handle_control_requests,
      handle_control_request_terminate pool tmsg hterm, List.foldl_nil]
  | cons m rest ih =>
    intro pool last tmsg post hno hterm
    have hm : m.request.command ≠ "TERMINATE" :=
      hno m (List.mem_cons_self m rest)
    simp only [List.cons_append, handle_control_requests,
      handle_control_request_eq_ok pool m hm, List.foldl_cons]
    exact ih (control_effect pool m) (some m) tmsg post
      (fun m' hm' => hno m' (List.mem_cons_of_mem m hm')) hterm

/-- `_handle_messages` routes a batch whose first envelope is not of Data
type to the control loop. -/
theorem handle_messages_control {D E : Type} (h : Head D E)
    (pool : Registry) (messages : List (Message D E)) (m0 : Message D E)
    (hhead : messages.head? = some m0)
    (hctrl : m0.envelope.request_type ≠ "DataRequest") :
    handle_messages h pool messages =
      handle_control_requests pool messages none := by
  cases messages with
  | nil => simp at hhead
  | cons a rest =>
    simp only [List.head?_cons, Option.some.injEq] at hhead
    subst hhead
    simp only [handle_messages]
    rw [if_pos hctrl]

/-- `_handle_messages` routes a batch whose first envelope is of Data type
to `_handle_data_requests`. -/
theorem handle_messages_data {D E : Type} (h : Head D E)
    (pool : Registry) (messages : List (Message D E)) (m0 : Message D E)
    (hhead : messages.head? = some m0)
    (hdata : m0.envelope.request_type = "DataRequest") :
    handle_messages h pool messages =
      (pool, (handle_data_requests h messages).map some) := by
  cases messages with
  | nil => simp at hhead
  | cons a rest =>
    simp only [List.head?_cons, Option.some.injEq] at hhead
    subst hhead
    simp only [handle_messages]
    rw [if_neg (by simpa using hdata)]

/-! ## Claim C2 -/

/-- Claim C2: on a non-empty Control batch (first envelope not of Data
type) containing no TERMINATE, `Call` applies the commands to the
Connection Registry strictly in input order with cumulative effects (a
left fold of the per-message effect), and the message returned to the
caller is the result of processing the last message only — which
`_handle_control_request` returns as the message itself; earlier results
are discarded. -/
theorem control_batch_order_and_last {D E : Type} (h : Head D E)
    (st : CallState) (m0 : Message D E) (ms : List (Message D E))
    (hctrl : m0.envelope.request_type ≠ "DataRequest")
    (hnoterm : ∀ m ∈ m0 :: ms, m.request.command ≠ "TERMINATE") :
    Call h st (m0 :: ms) =
      ({ st with pool := (m0 :: ms).foldl control_effect st.pool },
        Except.ok ((m0 :: ms).getLast?)) := by
  unfold Call
  rw [handle_messages_control h st.pool (m0 :: ms) m0 rfl hctrl,
    handle_control_requests_no_term (m0 :: ms) st.pool none hnoterm,
    foldl_overwrite (m0 :: ms) none (List.cons_ne_nil m0 ms)]

/-- Witness for C2: a batch ACTIVATE(e1); DEACTIVATE(e2); STATUS applied to
the empty registry: the ACTIVATE's endpoint is registered (the DEACTIVATE
of an absent endpoint is a no-op) and the returned message is the final
STATUS message. -/
theorem control_batch_order_and_last_witness :
    Call (D := Nat) (E := Nat)
        (Head.mk "head0" none none PollingType.ANY (fun _ _ =>
          Message.mk (Envelope.mk "ControlRequest" 0)
            (Request.mk "STATUS" [] [])) (fun _ _ => []))
        (CallState.mk ∅ false)
        [control_msg (Envelope.mk "ControlRequest" 0) "ACTIVATE"
            [RelatedEntity.mk "10.0.0.1" 8080 (some 1)],
          control_msg (Envelope.mk "ControlRequest" 0) "DEACTIVATE"
            [RelatedEntity.mk "10.0.0.9" 7070 (some 2)],
          control_msg (Envelope.mk "ControlRequest" 0) "STATUS" []] =
      (CallState.mk {Endpoint.mk "worker" "10.0.0.1:8080" (some 1)} false,
        Except.ok (some (control_msg (Envelope.mk "ControlRequest" 0)
          "STATUS" []))) := by
  rw [control_batch_order_and_last _ _ _ _ (by decide) (by decide)]
  rfl

/-! ## Claim C9 -/

/-- Claim C9: a Control batch containing a TERMINATE aborts there: the
commands before the TERMINATE are applied, no command after it is applied
to the Connection Registry, the runtime is cancelled, and the triggering
call produces no domain response. -/
theorem terminate_aborts_batch {D E : Type} (h : Head D E) (st : CallState)
    (pre post : List (Message D E)) (tmsg m0 : Message D E)
    (hterm : tmsg.request.command = "TERMINATE")
    (hpre : ∀ m ∈ pre, m.request.command ≠ "TERMINATE")
    (hhead : (pre ++ tmsg :: post).head? = some m0)
    (hctrl : m0.envelope.request_type ≠ "DataRequest") :
    Call h st (pre ++ tmsg :: post) =
      (CallState.mk (pre.foldl control_effect st.pool) true,
        Except.ok none) := by
  unfold Call
  rw [handle_messages_control h st.pool (pre ++ tmsg :: post) m0 hhead hctrl,
    handle_control_requests_term pre st.pool none tmsg post hpre hterm]

/-- Witness for C9: ACTIVATE(e1); TERMINATE; ACTIVATE(e2) from the empty
registry registers only e1, cancels the runtime and returns no domain
response. -/
theorem terminate_aborts_batch_witness :
    Call (D := Nat) (E := Nat)
        (Head.mk "head0" none none PollingType.ANY (fun _ _ =>
          Message.mk (Envelope.mk "ControlRequest" 0)
            (Request.mk "STATUS" [] [])) (fun _ _ => []))
        (CallState.mk ∅ false)
        ([control_msg (Envelope.mk "ControlRequest" 0) "ACTIVATE"
            [RelatedEntity.mk "10.0.0.1" 8080 (some 1)]] ++
          control_msg (Envelope.mk "ControlRequest" 0) "TERMINATE" [] ::
          [control_msg (Envelope.mk "ControlRequest" 0) "ACTIVATE"
            [RelatedEntity.mk "10.0.0.9" 7070 (some 2)]]) =
      (CallState.mk {Endpoint.mk "worker" "10.0.0.1:8080" (some 1)} true,
        Except.ok none) := by
  rw [terminate_aborts_batch
    (Head.mk "head0" none none PollingType.ANY (fun _ _ =>
      Message.mk (Envelope.mk "ControlRequest" 0)
        (Request.mk "STATUS" [] [])) (fun _ _ => []))
    (CallState.mk ∅ false)
    [control_msg (Envelope.mk "ControlRequest" 0) "ACTIVATE"
      [RelatedEntity.mk "10.0.0.1" 8080 (some 1)]]
    [control_msg (Envelope.mk "ControlRequest" 0) "ACTIVATE"
      [RelatedEntity.mk "10.0.0.9" 7070 (some 2)]]
    (control_msg (Envelope.mk "ControlRequest" 0) "TERMINATE" [])
    (control_msg (Envelope.mk "ControlRequest" 0) "ACTIVATE"
      [RelatedEntity.mk "10.0.0.1" 8080 (some 1)])
    (by decide) (by decide) rfl (by decide)]
  rfl

/-! ## Claim C1 -/

/-- Claim C1: on a Data batch whose fan-out produces more than one worker
result, with no `uses_after` configured, the local merge returns the first
result of the completion order with its document sequence replaced by the
concatenation of all results' documents in the reverse of completion
order; in particular the returned envelope is that of `R[0]` and the
returned documents are the reversed-order concatenation. -/
theorem data_local_merge {D E : Type} (h : Head D E)
    (messages : List (Message D E)) (r0 r1 : Message D E)
    (rest : List (Message D E))
    (hafter : h.uses_after_address = none)
    (hfan : fan_out_results h messages = r0 :: r1 :: rest) :
    handle_data_requests h messages =
      Except.ok (replace_docs r0
        (((r0 :: r1 :: rest).reverse.map (fun r => r.request.docs)).flatten))
      ∧
    (replace_docs r0
        (((r0 :: r1 :: rest).reverse.map (fun r => r.request.docs)).flatten)
      ).envelope = r0.envelope ∧
    (replace_docs r0
        (((r0 :: r1 :: rest).reverse.map (fun r => r.request.docs)).flatten)
      ).request.docs =
      ((r0 :: r1 :: rest).reverse.map (fun r => r.request.docs)).flatten := by
  refine ⟨?_, rfl, rfl⟩
  have hlen : 1 < (r0 :: r1 :: rest).length := by
    simp only [List.length_cons]
    omega
  unfold handle_data_requests
  rw [hfan, hafter]
  simp only [Option.isSome_none, Bool.false_eq_true, if_false, if_pos hlen,
    List.map_reverse, List.map_map]
  rfl

/-- Witness for C1, following the spec's example: completion order
`[w2, w1]` with `w2.docs = [3]` and `w1.docs = [1, 2]`; the merged response
is `w2` carrying `[1, 2] ++ [3] = [1, 2, 3]`. -/
theorem data_local_merge_witness :
    handle_data_requests (D := Nat) (E := Nat)
        (Head.mk "head0" none none PollingType.ALL
          (fun _ _ => Message.mk (Envelope.mk "DataRequest" 9)
            (Request.mk "" [] []))
          (fun _ _ =>
            [Message.mk (Envelope.mk "DataRequest" 2) (Request.mk "" [] [3]),
              Message.mk (Envelope.mk "DataRequest" 1)
                (Request.mk "" [] [1, 2])]))
        [Message.mk (Envelope.mk "DataRequest" 0) (Request.mk "" [] [7])] =
      Except.ok (Message.mk (Envelope.mk "DataRequest" 2)
        (Request.mk "" [] [1, 2, 3])) := by
  rw [(data_local_merge
    (Head.mk "head0" none none PollingType.ALL
      (fun _ _ => Message.mk (Envelope.mk "DataRequest" 9)
        (Request.mk "" [] []))
      (fun _ _ =>
        [Message.mk (Envelope.mk "DataRequest" 2) (Request.mk "" [] [3]),
          Message.mk (Envelope.mk "DataRequest" 1)
            (Request.mk "" [] [1, 2])]))
    [Message.mk (Envelope.mk "DataRequest" 0) (Request.mk "" [] [7])]
    (Message.mk (Envelope.mk "DataRequest" 2) (Request.mk "" [] [3]))
    (Message.mk (Envelope.mk "DataRequest" 1) (Request.mk "" [] [1, 2]))
    [] rfl rfl).1]
  rfl

/-! ## Claim C4 -/

/-- Claim C4 counterexample: the claim omits the `uses_after` condition,
but `_handle_data_requests` consults `uses_after` before counting results;
with a `uses_after` address configured, a single worker result is not
passed through — the `uses_after` reply is returned instead. -/
theorem data_single_result_cex :
    (fan_out_results (D := Nat) (E := Nat)
        (Head.mk "head0" none (some "post:1") PollingType.ALL
          (fun _ _ => Message.mk (Envelope.mk "DataRequest" 9)
            (Request.mk "" [] [5, 6]))
          (fun _ _ =>
            [Message.mk (Envelope.mk "DataRequest" 1) (Request.mk "" [] [1])]))
        [Message.mk (Envelope.mk "DataRequest" 0) (Request.mk "" [] [7])] =
      [Message.mk (Envelope.mk "DataRequest" 1) (Request.mk "" [] [1])]) ∧
    (handle_data_requests (D := Nat) (E := Nat)
        (Head.mk "head0" none (some "post:1") PollingType.ALL
          (fun _ _ => Message.mk (Envelope.mk "DataRequest" 9)
            (Request.mk "" [] [5, 6]))
          (fun _ _ =>
            [Message.mk (Envelope.mk "DataRequest" 1) (Request.mk "" [] [1])]))
        [Message.mk (Envelope.mk "DataRequest" 0) (Request.mk "" [] [7])] =
      Except.ok (Message.mk (Envelope.mk "DataRequest" 9)
        (Request.mk "" [] [5, 6]))) ∧
    Message.mk (Envelope.mk "DataRequest" 9)
        (Request.mk "" [] ([5, 6] : List Nat)) ≠
      Message.mk (Envelope.mk "DataRequest" 1) (Request.mk "" [] [1]) :=
  ⟨rfl, rfl, by decide⟩

/-- Claim C4 (amended): on a Data batch whose fan-out produces exactly one
worker result, with no `uses_after` configured, the returned message is
that single result unchanged. -/
theorem data_single_result_passthrough {D E : Type} (h : Head D E)
    (messages : List (Message D E)) (r : Message D E)
    (hafter : h.uses_after_address = none)
    (hfan : fan_out_results h messages = [r]) :
    handle_data_requests h messages = Except.ok r := by
  unfold handle_data_requests
  rw [hfan, hafter]
  simp

/-- Witness for C4 (amended) at a concrete single-result fan-out. -/
theorem data_single_result_passthrough_witness :
    handle_data_requests (D := Nat) (E := Nat)
        (Head.mk "head0" none none PollingType.ANY
          (fun _ _ => Message.mk (Envelope.mk "DataRequest" 9)
            (Request.mk "" [] []))
          (fun _ _ =>
            [Message.mk (Envelope.mk "DataRequest" 1) (Request.mk "" [] [4])]))
        [Message.mk (Envelope.mk "DataRequest" 0) (Request.mk "" [] [7])] =
      Except.ok (Message.mk (Envelope.mk "DataRequest" 1)
        (Request.mk "" [] [4])) :=
  data_single_result_passthrough _ _
    (Message.mk (Envelope.mk "DataRequest" 1) (Request.mk "" [] [4])) rfl rfl

/-! ## Claim C3 -/

/-- Claim C3 counterexample: the claim omits the `uses_after` condition,
but with a `uses_after` address configured a zero-result fan-out does not
fail — the empty result list is forwarded to `uses_after` and its reply is
returned to the caller as a normal response. -/
theorem data_zero_results_cex :
    (fan_out_results (D := Nat) (E := Nat)
        (Head.mk "head0" none (some "post:1") PollingType.ALL
          (fun _ _ => Message.mk (Envelope.mk "DataRequest" 9)
            (Request.mk "" [] [5]))
          (fun _ _ => []))
        [Message.mk (Envelope.mk "DataRequest" 0) (Request.mk "" [] [7])] =
      []) ∧
    Call (D := Nat) (E := Nat)
        (Head.mk "head0" none (some "post:1") PollingType.ALL
          (fun _ _ => Message.mk (Envelope.mk "DataRequest" 9)
            (Request.mk "" [] [5]))
          (fun _ _ => []))
        (CallState.mk ∅ false)
        [Message.mk (Envelope.mk "DataRequest" 0) (Request.mk "" [] [7])] =
      (CallState.mk ∅ false,
        Except.ok (some (Message.mk (Envelope.mk "DataRequest" 9)
          (Request.mk "" [] [5])))) :=
  ⟨rfl, rfl⟩

/-- Claim C3 (amended): on a Data batch with no `uses_after` configured
whose fan-out collects zero worker results, `Call` fails with the
`RuntimeError` naming the head node, and the caller receives no merged
response. -/
theorem data_zero_results_error {D E : Type} (h : Head D E)
    (st : CallState) (m0 : Message D E) (ms : List (Message D E))
    (hdata : m0.envelope.request_type = "DataRequest")
    (hafter : h.uses_after_address = none)
    (hzero : fan_out_results h (m0 :: ms) = []) :
    Call h st (m0 :: ms) =
      (st, Except.error (HeadError.RuntimeError
        ("Head " ++ h.name ++
          " did not receive a response when sending message to worker peas")))
      := by
  unfold Call
  rw [handle_messages_data h st.pool (m0 :: ms) m0 rfl hdata]
  have hd : handle_data_requests h (m0 :: ms) =
      Except.error (HeadError.RuntimeError
        ("Head " ++ h.name ++
          " did not receive a response when sending message to worker peas"))
      := by
    unfold handle_data_requests
    rw [hzero, hafter]
    simp
  rw [hd]
  rfl

/-- Witness for C3 (amended): a head named `head0` with no workers and no
`uses_after` fails with the aggregation error naming `head0`. -/
theorem data_zero_results_error_witness :
    Call (D := Nat) (E := Nat)
        (Head.mk "head0" none none PollingType.ALL
          (fun _ _ => Message.mk (Envelope.mk "DataRequest" 9)
            (Request.mk "" [] []))
          (fun _ _ => []))
        (CallState.mk ∅ false)
        [Message.mk (Envelope.mk "DataRequest" 0) (Request.mk "" [] [7])] =
      (CallState.mk ∅ false,
        Except.error (HeadError.RuntimeError
          ("Head head0 did not receive a response when sending message to worker peas")))
      := by
  rw [data_zero_results_error
    (Head.mk "head0" none none PollingType.ALL
      (fun _ _ => Message.mk (Envelope.mk "DataRequest" 9)
        (Request.mk "" [] []))
      (fun _ _ => []))
    (CallState.mk ∅ false)
    (Message.mk (Envelope.mk "DataRequest" 0) (Request.mk "" [] [7]))
    [] rfl rfl rfl]
  rfl

/-! ## Wait-loop lemmas -/

/-- The guard holds for `none` timeouts. -/
theorem elapsed_lt_none (e : Nat) : elapsed_lt none e = true := rfl

/-- The guard holds below a finite timeout. -/
theorem elapsed_lt_some_true {t e : Nat} (h : e < t) :
    elapsed_lt (some t) e = true := by
  simp [elapsed_lt, h]

/-- The guard fails at and beyond a finite timeout. -/
theorem elapsed_lt_some_false {t e : Nat} (h : ¬ e < t) :
    elapsed_lt (some t) e = false := by
  simp [elapsed_lt, h]

/-- The guard is antitone in elapsed time. -/
theorem elapsed_lt_mono (timeout_ns : Option Nat) (j k : Nat) (hjk : j ≤ k)
    (hk : elapsed_lt timeout_ns (k * sleep_ns) = true) :
    elapsed_lt timeout_ns (j * sleep_ns) = true := by
  cases timeout_ns with
  | none => rfl
  | some t =>
    simp only [elapsed_lt, decide_eq_true_eq] at hk ⊢
    exact lt_of_le_of_lt (Nat.mul_le_mul_right _ hjk) hk

/-- If the condition first becomes true at an in-bound poll `k`, the loop
returns `some true` there. -/
theorem wait_loop_reaches_true (shutdown ready : Nat → Bool)
    (timeout_ns : Option Nat) :
    ∀ (fuel j k : Nat), j ≤ k → k - j < fuel →
      elapsed_lt timeout_ns (k * sleep_ns) = true →
      (shutdown k || ready k) = true →
      (∀ i, j ≤ i → i < k → (shutdown i || ready i) = false) →
      wait_loop shutdown ready timeout_ns fuel j = some true := by
  intro fuel
  induction fuel with
  | zero =>
    intro j k hjk hfuel _ _ _
    omega
  | succ fuel ih =>
    intro j k hjk hfuel hguard hcond hprev
    simp only [wait_loop]
    rw [if_pos (elapsed_lt_mono timeout_ns j k hjk hguard)]
    by_cases hj : j = k
    · subst hj
      rw [if_pos hcond]
    · have hjf : (shutdown j || ready j) = false :=
        hprev j le_rfl (by omega)
      rw [hjf]
      simp only [Bool.false_eq_true, if_false]
      exact ih (j + 1) k (by omega) (by omega) hguard hcond
        (fun i h1 h2 => hprev i (by omega) h2)

/-- If the condition stays false at every in-bound poll, the loop returns
`some false` at the first poll past the timeout, given enough fuel. -/
theorem wait_loop_timeout_false (shutdown ready : Nat → Bool) (t : Nat) :
    ∀ (fuel j : Nat),
      (∀ i, i * sleep_ns < t → (shutdown i || ready i) = false) →
      t ≤ (j + fuel) * sleep_ns →
      wait_loop shutdown ready (some t) (fuel + 1) j = some false := by
  intro fuel
  induction fuel with
  | zero =>
    intro j hcond hle
    rw [Nat.add_zero] at hle
    simp only [wait_loop]
    rw [elapsed_lt_some_false (by omega)]
    simp
  | succ fuel ih =>
    intro j hcond hle
    by_cases hg : j * sleep_ns < t
    · simp only [wait_loop]
      rw [elapsed_lt_some_true hg]
      simp only [if_true]
      rw [hcond j hg]
      simp only [Bool.false_eq_true, if_false]
      have harith : j + (fuel + 1) = (j + 1) + fuel := by omega
      rw [harith] at hle
      exact ih (j + 1) hcond hle
    · simp only [wait_loop]
      rw [elapsed_lt_some_false hg]
      simp

/-- With no timeout the loop can never return `some false`. -/
theorem wait_loop_none_ne_false (shutdown ready : Nat → Bool) :
    ∀ (fuel j : Nat),
      wait_loop shutdown ready none fuel j ≠ some false := by
  intro fuel
  induction fuel with
  | zero =>
    intro j h
    exact Option.noConfusion h
  | succ fuel ih =>
    intro j
    simp only [wait_loop, elapsed_lt_none, if_true]
    by_cases hc : (shutdown j || ready j) = true
    · rw [if_pos hc]
      intro h
      simp at h
    · rw [if_neg hc]
      exact ih (j + 1)

/-! ## Claim C8 -/

/-- Claim C8: `wait_for_ready_or_shutdown` polls the shutdown signal and
the probe at the fixed 100 ms interval.  Part 1: with a positive timeout it
returns `true` at the first poll at which the shutdown signal is set or
the probe succeeds, provided that poll happens before the timeout.
Part 2: likewise with no timeout.  Part 3: with a positive timeout and
neither condition ever true in-bound, it returns `false` once the timeout
has elapsed.  Part 4: with `timeout = none` it polls indefinitely — it
never returns `false`, whatever the fuel.  (The `timeout = 0` input is the
subject of the separate zero-timeout treatment.) -/
theorem wait_for_ready_or_shutdown_spec :
    (∀ (shutdown ready : Nat → Bool) (t k fuel : Nat), 0 < t →
      k * sleep_ns < 1000000000 * t →
      (shutdown k || ready k) = true →
      (∀ i, i < k → (shutdown i || ready i) = false) →
      k < fuel →
      wait_for_ready_or_shutdown (some t) shutdown ready fuel = some true) ∧
    (∀ (shutdown ready : Nat → Bool) (k fuel : Nat),
      (shutdown k || ready k) = true →
      (∀ i, i < k → (shutdown i || ready i) = false) →
      k < fuel →
      wait_for_ready_or_shutdown none shutdown ready fuel = some true) ∧
    (∀ (shutdown ready : Nat → Bool) (t fuel : Nat), 0 < t →
      (∀ i, i * sleep_ns < 1000000000 * t →
        (shutdown i || ready i) = false) →
      1000000000 * t ≤ fuel * sleep_ns →
      wait_for_ready_or_shutdown (some t) shutdown ready (fuel + 1) =
        some false) ∧
    (∀ (shutdown ready : Nat → Bool) (fuel : Nat),
      wait_for_ready_or_shutdown none shutdown ready fuel ≠ some false) := by
  refine ⟨?_, ?_, ?_, ?_⟩
  · intro shutdown ready t k fuel ht hk hcond hprev hfuel
    show wait_loop shutdown ready
        (if t = 0 then none else some (1000000000 * t)) fuel 0 = some true
    rw [if_neg (show ¬ t = 0 by omega)]
    exact wait_loop_reaches_true shutdown ready (some (1000000000 * t))
      fuel 0 k (Nat.zero_le k) (by omega) (elapsed_lt_some_true hk) hcond
      (fun i _ h2 => hprev i h2)
  · intro shutdown ready k fuel hcond hprev hfuel
    unfold wait_for_ready_or_shutdown
    exact wait_loop_reaches_true shutdown ready none fuel 0 k
      (Nat.zero_le k) (by omega) (elapsed_lt_none _) hcond
      (fun i _ h2 => hprev i h2)
  · intro shutdown ready t fuel ht hcond hfuel
    show wait_loop shutdown ready
        (if t = 0 then none else some (1000000000 * t)) (fuel + 1) 0 =
      some false
    rw [if_neg (show ¬ t = 0 by omega)]
    exact wait_loop_timeout_false shutdown ready (1000000000 * t) fuel 0
      hcond (by rw [Nat.zero_add]; exact hfuel)
  · intro shutdown ready fuel
    unfold wait_for_ready_or_shutdown
    exact wait_loop_none_ne_false shutdown ready fuel 0

/-- Witness for C8, one concrete instance per part: the condition first
true at poll 2 within a 1 s timeout; the condition first true at poll 0
with no timeout; a never-true condition with a 1 s timeout and 11 polls of
fuel; no timeout never yielding `false`. -/
theorem wait_for_ready_or_shutdown_spec_witness :
    wait_for_ready_or_shutdown (some 1) (fun k => decide (2 ≤ k))
        (fun _ => false) 4 = some true ∧
    wait_for_ready_or_shutdown none (fun _ => true) (fun _ => false) 1 =
      some true ∧
    wait_for_ready_or_shutdown (some 1) (fun _ => false) (fun _ => false)
        11 = some false ∧
    wait_for_ready_or_shutdown none (fun _ => false) (fun _ => false) 3 ≠
      some false :=
  ⟨wait_for_ready_or_shutdown_spec.1 _ _ 1 2 4 (by decide) (by decide)
      (by decide) (by decide) (by decide),
    wait_for_ready_or_shutdown_spec.2.1 _ _ 0 1 (by decide)
      (fun i h => absurd h (by omega)) (by decide),
    wait_for_ready_or_shutdown_spec.2.2.1 _ _ 1 10 (by decide)
      (fun i _ => rfl) (by decide),
    wait_for_ready_or_shutdown_spec.2.2.2 _ _ 3⟩

/-! ## Claim C10 -/

/-- Claim C10: a timeout of `0` is falsy in `timeout_ns = 1000000000 *
timeout if timeout else None`, so `wait_for_ready_or_shutdown` with
`timeout = 0` behaves exactly like `timeout = none`: it polls indefinitely
and never returns `false`, instead of timing out immediately. -/
theorem wait_zero_timeout_like_none :
    (∀ (shutdown ready : Nat → Bool) (fuel : Nat),
      wait_for_ready_or_shutdown (some 0) shutdown ready fuel =
        wait_for_ready_or_shutdown none shutdown ready fuel) ∧
    (∀ (shutdown ready : Nat → Bool) (fuel : Nat),
      wait_for_ready_or_shutdown (some 0) shutdown ready fuel ≠
        some false) := by
  constructor
  · intro shutdown ready fuel
    rfl
  · intro shutdown ready fuel
    exact wait_loop_none_ne_false shutdown ready fuel 0

/-- Witness for C10: with `timeout = 0` and conditions never true, after 3
polls the loop is still running (`none`), and in particular has not timed
out with `some false`. -/
theorem wait_zero_timeout_like_none_witness :
    wait_for_ready_or_shutdown (some 0) (fun _ => false) (fun _ => false) 3
        = none ∧
    wait_for_ready_or_shutdown (some 0) (fun _ => false) (fun _ => false) 3
        ≠ some false :=
  ⟨rfl, wait_zero_timeout_like_none.2 _ _ 3⟩

end Jina
